import Mathlib

/-!
Shallow embedding of the simpleConnPool repository (Go).

Source files: simple_pool.go (types Config, connectionPool, idleConn, connReq;
functions NewPool, Get, Put, Close) and error.go (sentinel error values).

Modelling conventions:
- Go `interface{}` / `any` values handed around by the pool are `GoVal`:
  either a raw resource produced by the factory (`GoVal.res`) or a pointer to
  an `idleConn` struct (`GoVal.idleConnVal connection lastActiveTime`).  The
  latter is needed because `Get` returns `idleC` itself (the `*idleConn`),
  and `Put` wraps whatever it is given in a fresh `idleConn`.
- Buffered channels (`idleQueue chan *idleConn`, `reqQueue chan connReq`)
  become FIFO lists with their capacity kept in `Model`; receive pops the
  head, send appends at the tail, a send on a full channel blocks.
- `connReq` is a struct sent BY VALUE into `reqQueue`: the queue stores a
  copy of the struct.  Its `abandon bool` field is plain data (copied), while
  its `idleConn chan any` field is a channel reference shared between the
  copies.  We therefore keep the unbuffered handoff channels in a separate
  table `PoolState.chans`, indexed by `ConnReq.chanId`; `Chan.receiverWaiting`
  records whether the Get goroutine is still blocked receiving on it, and
  `Chan.val` the value delivered through it (if any).  An unbuffered send
  succeeds exactly when a receiver is waiting; otherwise it blocks forever.
- `sync/atomic` counters become an `Int` field updated in place (the model is
  sequential, one operation at a time, so atomicity is implicit).
- `time.Duration` and `time.Time` become `Nat` (current time passed as a
  `now` argument); `time.Now().Sub(t)` becomes truncated subtraction, which
  agrees with the Go comparison `sub > timeout` whenever `timeout > 0`.
- Go errors become the inductive `Err`; errors coming out of the
  user-supplied factory / close functions are `Err.external k` for opaque `k`.
- `time.NewTicker(d)` panics when `d <= 0`; `Get` calls it with
  `c.waitTimeOut`, so a zero wait timeout makes `Get` crash
  (`GetOutcome.crashed`).
-/

namespace SimpleConnPool

/-- A Go `any` value circulating through the pool: a raw factory-produced
resource, or a pointer to an `idleConn` struct wrapping a value together with
its `lastActiveTime`. -/
inductive GoVal where
  | res : Nat → GoVal
  | idleConnVal : GoVal → Nat → GoVal
deriving DecidableEq, Repr

/-- The sentinel error values of error.go, plus `external k` for an opaque
error value returned by the user-supplied factory or close function. -/
inductive Err where
  | poolClosed
  | getConnectionTimeout
  | connectionIsNull
  | invalidCapSet
  | invalidFactorySet
  | invalidCloseSet
  | initPoolErr
  | external : Nat → Err
deriving DecidableEq, Repr

/-- The `connReq` struct: `abandon bool` (plain data, copied when the struct
is sent by value into `reqQueue`) and `idleConn chan any` (a channel
reference, modelled as an index into `PoolState.chans`). -/
structure ConnReq where
  abandon : Bool
  chanId : Nat
deriving DecidableEq, Repr

/-- State of one unbuffered handoff channel (`connReq.idleConn`):
whether the creating Get goroutine is still blocked receiving on it, and the
value delivered through it, if any. -/
structure Chan where
  receiverWaiting : Bool
  val : Option GoVal
deriving DecidableEq, Repr

/-- The mutable part of `connectionPool`: the two channel queues, the handoff
channel table, the atomic counter `openingConn`, plus two observation logs
(values passed to the close function, number of factory calls) used to state
properties. -/
structure PoolState where
  idleQueue : List (GoVal × Nat)
  reqQueue : List ConnReq
  chans : List Chan
  openingConn : Int
  closedLog : List GoVal
  factoryCalls : Nat
deriving DecidableEq, Repr

/-- The immutable part of `connectionPool`: the user-supplied factory
(indexed by call count; `Except.error k` models a failing call) and close
function (`some k` models a returned error), the two timeouts, the admission
ceiling `maxActiveConn`, and the capacities of the two channels
(`maxIdle` for `idleQueue`, `waitQueueCap` for `reqQueue`). -/
structure Model where
  factory : Nat → Except Nat GoVal
  closer : GoVal → Option Nat
  idleTimeOut : Nat
  waitTimeOut : Nat
  maxActiveConn : Int
  maxIdle : Nat
  waitQueueCap : Nat

/-- The pool's `Close` method (simple_pool.go lines 166-173): decrements
`openingConn` and calls the user close function, returning its error.  The
`c.close == nil` guard never fires for a pool built by `NewPool`, whose
validation rejects a nil close function. -/
def poolClose (m : Model) (s : PoolState) (conn : GoVal) : Option Err × PoolState :=
  ((m.closer conn).map Err.external,
    { s with openingConn := s.openingConn - 1, closedLog := s.closedLog ++ [conn] })

/-- Result of a `Get` call in the sequential model. -/
inductive GetOutcome where
  | ok : GoVal → GetOutcome
  | err : Err → GetOutcome
  | blockedEnqueue
  | crashed
deriving DecidableEq, Repr

/-- The `Get` loop (simple_pool.go lines 84-130), with the current contents
of `idleQueue` passed as the recursion argument (it always equals
`s.idleQueue`).  Non-empty idle queue: pop `idleC`; if `idleTimeOut > 0` and
`now - lastActiveTime > idleTimeOut`, run `_ = c.Close(idleC)` (closing the
`*idleConn` wrapper itself, error discarded) and `continue`; otherwise
`return idleC, nil` — the wrapper, not its `connection` field.  Empty idle
queue (the `default` branch): `atomic.AddInt32(&c.openingConn, 1)` and admit
iff the post-increment value is `< c.maxActiveConn`; if admitted, return
`c.factory()` as is (on error the increment is NOT rolled back); if denied,
roll the increment back, then `time.NewTicker(c.waitTimeOut)` — which panics
when the duration is 0 — and try to send a copy of a fresh `connReq` into
`reqQueue`: if the queue is full this send blocks forever (no other case in
that select); if it succeeds, the sequential model has no concurrent Put, so
the ticker fires, the goroutine sets `abandon` on its LOCAL copy only (the
queue copy keeps `abandon = false`), stops receiving, and returns
`GetConnectionTimeout`. -/
def getWithIdle (m : Model) (now : Nat) :
    List (GoVal × Nat) → PoolState → GetOutcome × PoolState
  | idleC :: rest, s =>
    if m.idleTimeOut > 0 ∧ now - idleC.2 > m.idleTimeOut then
      getWithIdle m now rest
        (poolClose m { s with idleQueue := rest } (GoVal.idleConnVal idleC.1 idleC.2)).2
    else
      (GetOutcome.ok (GoVal.idleConnVal idleC.1 idleC.2), { s with idleQueue := rest })
  | [], s =>
    if s.openingConn + 1 < m.maxActiveConn then
      match m.factory s.factoryCalls with
      | Except.ok v =>
        (GetOutcome.ok v,
          { s with openingConn := s.openingConn + 1, factoryCalls := s.factoryCalls + 1 })
      | Except.error k =>
        (GetOutcome.err (Err.external k),
          { s with openingConn := s.openingConn + 1, factoryCalls := s.factoryCalls + 1 })
    else
      if m.waitTimeOut = 0 then
        (GetOutcome.crashed, s)
      else if s.reqQueue.length < m.waitQueueCap then
        (GetOutcome.err Err.getConnectionTimeout,
          { s with
            reqQueue := s.reqQueue ++ [{ abandon := false, chanId := s.chans.length }],
            chans := s.chans ++ [{ receiverWaiting := false, val := none }] })
      else
        (GetOutcome.blockedEnqueue, s)

/-- `Get` on a pool state: run the loop on the current idle queue. -/
def get (m : Model) (s : PoolState) (now : Nat) : GetOutcome × PoolState :=
  getWithIdle m now s.idleQueue s

/-- Result of a `Put` call in the sequential model. -/
inductive PutOutcome where
  | ok
  | err : Err → PutOutcome
  | blockedSend
deriving DecidableEq, Repr

/-- The `Try` loop of `Put` (simple_pool.go lines 137-162), with the current
contents of `reqQueue` passed as the recursion argument (it always equals
`s.reqQueue`).  Non-empty request queue: pop the stored `connReq` copy; if
its `abandon` field is true, `goto Try`; otherwise perform the unbuffered
send `req.idleConn <- conn`, which succeeds only if the Get goroutine is
still blocked receiving on that channel, and otherwise blocks forever.
Empty request queue: try to send a fresh `idleConn` wrapper into
`idleQueue`; if it is full, `atomic.AddInt32(&c.openingConn, -1)` and then
`return c.Close(conn)` (which decrements `openingConn` again). -/
def putWithReqs (m : Model) (c : GoVal) (now : Nat) :
    List ConnReq → PoolState → PutOutcome × PoolState
  | req :: rest, s =>
    if req.abandon then
      putWithReqs m c now rest { s with reqQueue := rest }
    else
      match s.chans.get? req.chanId with
      | some ch =>
        if ch.receiverWaiting then
          (PutOutcome.ok,
            { s with
              reqQueue := rest,
              chans := s.chans.set req.chanId { receiverWaiting := false, val := some c } })
        else
          (PutOutcome.blockedSend, { s with reqQueue := rest })
      | none => (PutOutcome.blockedSend, { s with reqQueue := rest })
  | [], s =>
    if s.idleQueue.length < m.maxIdle then
      (PutOutcome.ok, { s with idleQueue := s.idleQueue ++ [(c, now)] })
    else
      let r := poolClose m { s with openingConn := s.openingConn - 1 } c
      (match r.1 with
        | none => PutOutcome.ok
        | some e => PutOutcome.err e, r.2)

/-- `Put` (simple_pool.go lines 133-163): nil check, then the `Try` loop. -/
def put (m : Model) (s : PoolState) (conn : Option GoVal) (now : Nat) :
    PutOutcome × PoolState :=
  match conn with
  | none => (PutOutcome.err Err.connectionIsNull, s)
  | some c => putWithReqs m c now s.reqQueue s

/-- One concurrency step of `Get` (simple_pool.go lines 110-118): a Get that
was denied admission builds `connReq{idleConn: make(chan any)}` and sends a
copy of it into `reqQueue`, then blocks receiving on the handoff channel.
Returns the new state and the channel id of the waiter. -/
def enqueueWaiter (s : PoolState) : PoolState × Nat :=
  ({ s with
      reqQueue := s.reqQueue ++ [{ abandon := false, chanId := s.chans.length }],
      chans := s.chans ++ [{ receiverWaiting := true, val := none }] },
    s.chans.length)

/-- One concurrency step of `Get` (simple_pool.go lines 121-124): the ticker
fires, the waiter sets `req.abandon = true` on its LOCAL struct copy — the
copy stored in `reqQueue` is untouched — stops receiving on its handoff
channel and returns `GetConnectionTimeout`. -/
def timeoutWaiter (s : PoolState) (cid : Nat) : PoolState :=
  match s.chans.get? cid with
  | some ch => { s with chans := s.chans.set cid { ch with receiverWaiting := false } }
  | none => s

/-- The value a waiter's blocked `<-req.idleConn` receive has obtained, if
any: the blocked Get returns `(that value, nil)` once it is delivered. -/
def waiterReceived (s : PoolState) (cid : Nat) : Option GoVal :=
  (s.chans.get? cid).bind Chan.val

/-- Configuration (simple_pool.go lines 13-22); the factory and close
functions live in `Model`, so here only their nil-ness is recorded. -/
structure Config where
  initialCap : Int
  maxCap : Int
  maxIdle : Int
  factorySet : Bool
  closeSet : Bool
deriving DecidableEq, Repr

/-- The warm-up loop of `NewPool` (simple_pool.go lines 70-79): `n` factory
calls remaining, `k` calls made so far, `acc` the idle entries created so
far.  On a factory error the code does `return nil, InitPoolErr` — the
resources already created are NOT closed; the second component of the error
is the list of values passed to the close function before returning, which
is therefore always `[]`. -/
def warmUp (m : Model) (now : Nat) :
    Nat → Nat → List (GoVal × Nat) → Except (Err × List GoVal) (List (GoVal × Nat))
  | 0, _, acc => Except.ok acc
  | Nat.succ n, k, acc =>
    match m.factory k with
    | Except.ok v => warmUp m now n (k + 1) (acc ++ [(v, now)])
    | Except.error _ => Except.error (Err.initPoolErr, [])

/-- `NewPool` (simple_pool.go lines 48-81): validate, then warm up.  The
caps and functions of `m` are the ones taken from `cfg` (`maxActiveConn =
cfg.maxCap`, `maxIdle = cfg.maxIdle`).  On error, the error value is paired
with the list of resources closed before returning it. -/
def newPool (m : Model) (cfg : Config) (now : Nat) :
    Except (Err × List GoVal) PoolState :=
  if ¬ (cfg.initialCap ≤ cfg.maxIdle ∧ cfg.maxCap ≥ cfg.maxIdle ∧ 0 ≤ cfg.initialCap) then
    Except.error (Err.invalidCapSet, [])
  else if ¬ cfg.factorySet then
    Except.error (Err.invalidFactorySet, [])
  else if ¬ cfg.closeSet then
    Except.error (Err.invalidCloseSet, [])
  else
    (warmUp m now cfg.initialCap.toNat 0 []).map fun idle =>
      { idleQueue := idle
        reqQueue := []
        chans := []
        openingConn := cfg.initialCap
        closedLog := []
        factoryCalls := cfg.initialCap.toNat }

/-- A pool state with empty queues and a given `openingConn` count. -/
def emptyState (opening : Int) : PoolState :=
  { idleQueue := [], reqQueue := [], chans := [], openingConn := opening,
    closedLog := [], factoryCalls := 0 }

/-- A model whose factory always succeeds (call `k` yields `res (100 + k)`)
and whose close function never fails. -/
def okModel (idleT waitT : Nat) (maxA : Int) (maxI waitQ : Nat) : Model :=
  { factory := fun k => Except.ok (GoVal.res (100 + k))
    closer := fun _ => none
    idleTimeOut := idleT
    waitTimeOut := waitT
    maxActiveConn := maxA
    maxIdle := maxI
    waitQueueCap := waitQ }

/-- A model whose factory fails on every call with error value `k0` and
whose close function never fails. -/
def failFactoryModel (k0 : Nat) (waitT : Nat) (maxA : Int) : Model :=
  { factory := fun _ => Except.error k0
    closer := fun _ => none
    idleTimeOut := 0
    waitTimeOut := waitT
    maxActiveConn := maxA
    maxIdle := 2
    waitQueueCap := 1 }

/-- A model whose factory succeeds exactly once (call 0 yields `res 0`) and
fails on every later call with error value 5; close never fails. -/
def onceModel : Model :=
  { factory := fun k => if k = 0 then Except.ok (GoVal.res 0) else Except.error 5
    closer := fun _ => none
    idleTimeOut := 0
    waitTimeOut := 0
    maxActiveConn := 2
    maxIdle := 2
    waitQueueCap := 1 }

/-- State for the full-idle-queue discard scenario: one idle entry (capacity
one in the matching model), two live connections, no waiters. -/
def sFullIdle : PoolState :=
  { idleQueue := [(GoVal.res 0, 5)], reqQueue := [], chans := [],
    openingConn := 2, closedLog := [], factoryCalls := 0 }

/-- State for the expiry scenario: two idle entries, the first stale (last
active at 0), the second fresh (last active at 9); two live connections. -/
def sExpiry : PoolState :=
  { idleQueue := [(GoVal.res 0, 0), (GoVal.res 1, 9)], reqQueue := [], chans := [],
    openingConn := 2, closedLog := [], factoryCalls := 0 }

/-- State for the round-trip scenario: one fresh idle entry, one live
connection, no waiters. -/
def sRoundTrip : PoolState :=
  { idleQueue := [(GoVal.res 0, 2)], reqQueue := [], chans := [],
    openingConn := 1, closedLog := [], factoryCalls := 0 }

end SimpleConnPool

namespace SimpleConnPool

/-- Helper: every error outcome of the `Get` loop is either the wait
timeout sentinel or an error value propagated verbatim from the factory. -/
theorem getWithIdle_err_cases (m : Model) (now : Nat) :
    ∀ (l : List (GoVal × Nat)) (s : PoolState) (e : Err),
      (getWithIdle m now l s).1 = GetOutcome.err e →
      e = Err.getConnectionTimeout ∨ ∃ k, e = Err.external k := by
  intro l
  induction l with
  | nil =>
    intro s e h
    simp only [getWithIdle] at h
    by_cases h1 : s.openingConn + 1 < m.maxActiveConn
    · rw [if_pos h1] at h
      cases hf : m.factory s.factoryCalls with
      | ok v => rw [hf] at h; simp at h
      | error k =>
        rw [hf] at h
        simp at h
        exact Or.inr ⟨k, h.symm⟩
    · rw [if_neg h1] at h
      by_cases h2 : m.waitTimeOut = 0
      · rw [if_pos h2] at h; simp at h
      · rw [if_neg h2] at h
        by_cases h3 : s.reqQueue.length < m.waitQueueCap
        · rw [if_pos h3] at h
          simp at h
          exact Or.inl h.symm
        · rw [if_neg h3] at h; simp at h
  | cons idleC rest ih =>
    intro s e h
    simp only [getWithIdle] at h
    by_cases hx : m.idleTimeOut > 0 ∧ now - idleC.2 > m.idleTimeOut
    · rw [if_pos hx] at h
      exact ih _ _ h
    · rw [if_neg hx] at h; simp at h

/-- C1: the claim says an Acquire that finds the idle registry empty creates
a new resource exactly when the post-increment ActiveCount is `<= MaxCap`,
so that with ActiveCount 2 and MaxCap 3 it is admitted.  The code tests
`atomic.AddInt32(&c.openingConn, 1) < c.maxActiveConn` — strict — so at
ActiveCount 2, MaxCap 3 the post-increment value 3 is NOT admitted: the
factory is never called (factoryCalls stays 0), the increment is rolled back
(openingConn stays 2) and the call falls through to the wait queue, timing
out in the sequential model. -/
theorem admission_denied_at_two_of_three :
    (get (okModel 0 5 3 2 1) (emptyState 2) 0).1 = GetOutcome.err Err.getConnectionTimeout ∧
    (get (okModel 0 5 3 2 1) (emptyState 2) 0).2.factoryCalls = 0 ∧
    (get (okModel 0 5 3 2 1) (emptyState 2) 0).2.openingConn = 2 := by decide

/-- C2: the claim says that when an admitted Acquire's Factory call fails,
the reserved admission slot is decremented back before the error is
propagated.  The code does `return c.factory()` directly (line 105), so the
factory error comes back with `openingConn` still incremented: starting from
ActiveCount 0 with MaxCap 2, a failing factory leaves ActiveCount at 1. -/
theorem factory_failure_leaks_admission_slot :
    (get (failFactoryModel 42 5 2) (emptyState 0) 0).1 = GetOutcome.err (Err.external 42) ∧
    (get (failFactoryModel 42 5 2) (emptyState 0) 0).2.openingConn = 1 := by decide

/-- C3: the claim says the handoff write in Release never blocks
indefinitely, a timed-out waiter's resource falling through as if no waiter
existed.  In the code a timed-out Get set `abandon` only on its local struct
copy, so the queued copy still has `abandon = false`; Put then performs the
rendezvous send `req.idleConn <- conn` on an unbuffered channel with no
receiver and no fallback case, blocking forever.  Here a Get times out
(leaving its request queued with `abandon = false` and nobody receiving) and
the following Put blocks on the handoff send. -/
theorem put_handoff_send_blocks_forever :
    (get (okModel 0 5 1 1 1) (emptyState 0) 0).1 = GetOutcome.err Err.getConnectionTimeout ∧
    (get (okModel 0 5 1 1 1) (emptyState 0) 0).2.reqQueue = [{ abandon := false, chanId := 0 }] ∧
    (put (okModel 0 5 1 1 1) (get (okModel 0 5 1 1 1) (emptyState 0) 0).2
        (some (GoVal.res 7)) 1).1 = PutOutcome.blockedSend := by decide

/-- C4: the claim says that if a warm-up Factory call fails, every resource
already created during warm-up is closed via Closer before NewPool returns
the error.  The code does `return nil, InitPoolErr` straight from the loop
(line 73): with InitialCap 2 and a factory that succeeds on call 0 and fails
on call 1, the resource created by call 0 is never closed — the list of
values handed to the close function before the error is returned is
empty. -/
theorem warmup_failure_closes_nothing :
    newPool onceModel
        { initialCap := 2, maxCap := 2, maxIdle := 2, factorySet := true, closeSet := true } 0
      = Except.error (Err.initPoolErr, []) ∧
    onceModel.factory 0 = Except.ok (GoVal.res 0) := ⟨rfl, rfl⟩

/-- C5: the claim says a Release with no live waiter and a full idle
registry invokes Closer once and decrements ActiveCount by exactly one.
The code's overflow branch does `atomic.AddInt32(&c.openingConn, -1)` and
then `return c.Close(conn)`, and `Close` decrements again (line 171): from
ActiveCount 2 the release of one resource leaves ActiveCount 0 — a net
change of minus two — while the close function is indeed called exactly
once. -/
theorem full_idle_discard_double_decrements :
    (put (okModel 0 5 9 1 1) sFullIdle (some (GoVal.res 1)) 6).1 = PutOutcome.ok ∧
    (put (okModel 0 5 9 1 1) sFullIdle (some (GoVal.res 1)) 6).2.closedLog = [GoVal.res 1] ∧
    (put (okModel 0 5 9 1 1) sFullIdle (some (GoVal.res 1)) 6).2.openingConn = 0 := by decide

/-- C6: the claim says an expired idle entry has its resource closed and the
pop retried, and a non-expired entry has the resource stored in it (not the
entry wrapper) returned.  The code closes `idleC` — the `*idleConn` wrapper
— on expiry (line 94) and returns `idleC` itself on a hit (line 98), never
projecting out `.connection`: with a stale entry holding `res 0` and a fresh
entry holding `res 1` (IdleTimeout 5, now 10), the value closed is the
wrapper of `res 0` and the value returned is the wrapper of `res 1`, not
`res 1`.  The decrement-and-retry part does hold (ActiveCount 2 to 1, the
second entry served). -/
theorem get_returns_wrapper_not_resource :
    (get (okModel 5 5 9 2 1) sExpiry 10).1 = GetOutcome.ok (GoVal.idleConnVal (GoVal.res 1) 9) ∧
    (get (okModel 5 5 9 2 1) sExpiry 10).1 ≠ GetOutcome.ok (GoVal.res 1) ∧
    (get (okModel 5 5 9 2 1) sExpiry 10).2.closedLog = [GoVal.idleConnVal (GoVal.res 0) 0] ∧
    (get (okModel 5 5 9 2 1) sExpiry 10).2.openingConn = 1 ∧
    (get (okModel 5 5 9 2 1) sExpiry 10).2.idleQueue = [] := by decide

/-- C7: the claim says a Release that finds a live waiter delivers the
resource to it, and drops abandoned entries encountered during the scan.
Delivery to a still-listening waiter does work (first two conjuncts: the
waiter's handoff channel receives the resource and its Acquire would return
it).  But an entry whose Acquire has timed out is never detected as
abandoned: timing out set the flag only on the waiter's local copy, so the
queued copy still carries `abandon = false` (third conjunct) and Release,
instead of dropping it, attempts delivery and blocks forever (fourth
conjunct) with the resource neither handed off nor idled (fifth
conjunct). -/
theorem release_delivery_and_abandoned_scan :
    (put (okModel 0 5 1 1 1) (enqueueWaiter (emptyState 1)).1 (some (GoVal.res 3)) 2).1
        = PutOutcome.ok ∧
    waiterReceived
        (put (okModel 0 5 1 1 1) (enqueueWaiter (emptyState 1)).1 (some (GoVal.res 3)) 2).2 0
        = some (GoVal.res 3) ∧
    (timeoutWaiter (enqueueWaiter (emptyState 1)).1 0).reqQueue
        = [{ abandon := false, chanId := 0 }] ∧
    (put (okModel 0 5 1 1 1) (timeoutWaiter (enqueueWaiter (emptyState 1)).1 0)
        (some (GoVal.res 4)) 3).1 = PutOutcome.blockedSend ∧
    (put (okModel 0 5 1 1 1) (timeoutWaiter (enqueueWaiter (emptyState 1)).1 0)
        (some (GoVal.res 4)) 3).2.idleQueue = [] := by decide

/-- C8: the claim says that with WaitTimeout zero an Acquire that misses the
idle registry and is denied admission blocks on its handoff slot with no
deadline, neither crashing nor returning a timeout failure.  The code calls
`time.NewTicker(c.waitTimeOut)` before enqueueing, and `NewTicker` panics on
a non-positive duration: with WaitTimeout 0, MaxCap 1 and ActiveCount 0,
such an Acquire crashes. -/
theorem zero_wait_timeout_crashes :
    (get (okModel 0 0 1 1 1) (emptyState 0) 0).1 = GetOutcome.crashed := by decide

/-- C9 counterexample: the round-trip claim fails when the Acquire created a
new resource.  From an empty pool (ActiveCount 0, MaxCap 2, MaxIdle 1) a
successful Acquire creates `res 100`; the immediate Release of that same
resource inserts it into the idle registry, leaving ActiveCount 1 and one
idle entry — not the previous state. -/
theorem roundTrip_not_identity :
    (get (okModel 0 5 2 1 1) (emptyState 0) 5).1 = GetOutcome.ok (GoVal.res 100) ∧
    ¬ ((put (okModel 0 5 2 1 1) (get (okModel 0 5 2 1 1) (emptyState 0) 5).2
          (some (GoVal.res 100)) 6).2.openingConn = (emptyState 0).openingConn ∧
       (put (okModel 0 5 2 1 1) (get (okModel 0 5 2 1 1) (emptyState 0) 5).2
          (some (GoVal.res 100)) 6).2.idleQueue = (emptyState 0).idleQueue) := by decide

/-- C9 amended: when the Acquire hits a non-expired idle entry and no waiter
is pending, releasing the returned handle restores ActiveCount exactly and
restores the idle-registry length, but the registry now holds a fresh entry
wrapping the returned handle (the former `*idleConn`) with a new timestamp
rather than the original entry; when the Acquire instead created a new
resource, the round trip grows both ActiveCount and the registry. -/
theorem idle_hit_roundTrip (m : Model) (s : PoolState) (now now2 : Nat)
    (c : GoVal) (t : Nat) (rest : List (GoVal × Nat))
    (hidle : s.idleQueue = (c, t) :: rest)
    (hfresh : ¬ (m.idleTimeOut > 0 ∧ now - t > m.idleTimeOut))
    (hreq : s.reqQueue = [])
    (hcap : s.idleQueue.length ≤ m.maxIdle) :
    (get m s now).1 = GetOutcome.ok (GoVal.idleConnVal c t) ∧
    (put m (get m s now).2 (some (GoVal.idleConnVal c t)) now2).2.openingConn
        = s.openingConn ∧
    (put m (get m s now).2 (some (GoVal.idleConnVal c t)) now2).2.idleQueue.length
        = s.idleQueue.length ∧
    (put m (get m s now).2 (some (GoVal.idleConnVal c t)) now2).2.idleQueue
        = rest ++ [(GoVal.idleConnVal c t, now2)] := by
  have hget : get m s now
      = (GetOutcome.ok (GoVal.idleConnVal c t), { s with idleQueue := rest }) := by
    unfold get
    rw [hidle]
    simp only [getWithIdle]
    rw [if_neg hfresh]
  have hlen : rest.length < m.maxIdle := by
    rw [hidle] at hcap
    simp only [List.length_cons] at hcap
    omega
  have hput : put m { s with idleQueue := rest } (some (GoVal.idleConnVal c t)) now2
      = (PutOutcome.ok, { s with idleQueue := rest ++ [(GoVal.idleConnVal c t, now2)] }) := by
    show putWithReqs m (GoVal.idleConnVal c t) now2 s.reqQueue { s with idleQueue := rest } = _
    rw [hreq]
    simp only [putWithReqs]
    rw [if_pos hlen]
  refine ⟨by rw [hget], ?_, ?_, ?_⟩
  · rw [hget]
    show (put m { s with idleQueue := rest } (some (GoVal.idleConnVal c t)) now2).2.openingConn
        = s.openingConn
    rw [hput]
  · rw [hget]
    show (put m { s with idleQueue := rest }
        (some (GoVal.idleConnVal c t)) now2).2.idleQueue.length = s.idleQueue.length
    rw [hput, hidle]
    simp
  · rw [hget]
    show (put m { s with idleQueue := rest } (some (GoVal.idleConnVal c t)) now2).2.idleQueue
        = rest ++ [(GoVal.idleConnVal c t, now2)]
    rw [hput]

/-- Witness for the amended round trip: a pool with one fresh idle entry
holding `res 0` and ActiveCount 1; the Acquire/Release cycle restores
ActiveCount and the registry length, the registry now holding the
re-wrapped handle. -/
theorem idle_hit_roundTrip_witness :
    (get (okModel 0 5 2 1 1) sRoundTrip 3).1
        = GetOutcome.ok (GoVal.idleConnVal (GoVal.res 0) 2) ∧
    (put (okModel 0 5 2 1 1) (get (okModel 0 5 2 1 1) sRoundTrip 3).2
        (some (GoVal.idleConnVal (GoVal.res 0) 2)) 4).2.openingConn
        = sRoundTrip.openingConn ∧
    (put (okModel 0 5 2 1 1) (get (okModel 0 5 2 1 1) sRoundTrip 3).2
        (some (GoVal.idleConnVal (GoVal.res 0) 2)) 4).2.idleQueue.length
        = sRoundTrip.idleQueue.length ∧
    (put (okModel 0 5 2 1 1) (get (okModel 0 5 2 1 1) sRoundTrip 3).2
        (some (GoVal.idleConnVal (GoVal.res 0) 2)) 4).2.idleQueue
        = [] ++ [(GoVal.idleConnVal (GoVal.res 0) 2, 4)] :=
  idle_hit_roundTrip (okModel 0 5 2 1 1) sRoundTrip 3 4 (GoVal.res 0) 2 []
    rfl (by decide) rfl (by decide)

/-- C10 counterexample: Acquire can also fail with an error that is neither
the timeout sentinel nor the pool-closed sentinel — an admitted Acquire
whose factory fails propagates the factory's own error value. -/
theorem acquire_error_beyond_sentinels :
    (get (failFactoryModel 7 5 5) (emptyState 0) 0).1 = GetOutcome.err (Err.external 7) ∧
    Err.external 7 ≠ Err.getConnectionTimeout ∧
    Err.external 7 ≠ Err.poolClosed := by decide

/-- C10 amended: every error Acquire returns is the timeout sentinel, the
pool-closed sentinel, or an error propagated verbatim from the factory (no
pool-saturated error value exists); and when admission is denied, the wait
timeout is non-zero and the wait queue is full, Acquire blocks on the
enqueue with no deadline instead of returning an error — the WaitTimeout
deadline guards only the handoff wait after a successful enqueue. -/
theorem get_failure_modes (m : Model) (s : PoolState) (now : Nat) :
    (∀ e, (get m s now).1 = GetOutcome.err e →
        e = Err.getConnectionTimeout ∨ e = Err.poolClosed ∨ ∃ k, e = Err.external k) ∧
    (s.idleQueue = [] → ¬ s.openingConn + 1 < m.maxActiveConn →
        m.waitTimeOut ≠ 0 → m.waitQueueCap ≤ s.reqQueue.length →
        (get m s now).1 = GetOutcome.blockedEnqueue) := by
  constructor
  · intro e h
    rcases getWithIdle_err_cases m now s.idleQueue s e h with h1 | ⟨k, hk⟩
    · exact Or.inl h1
    · exact Or.inr (Or.inr ⟨k, hk⟩)
  · intro hidle hadm hwt hfull
    unfold get
    rw [hidle]
    simp only [getWithIdle]
    rw [if_neg hadm, if_neg hwt,
      if_neg (by omega : ¬ s.reqQueue.length < m.waitQueueCap)]

/-- Witness for the failure-mode theorem: a saturated pool (ActiveCount 0
but MaxCap 1, so admission is denied) with wait-queue capacity 0 — the
queue is full even when empty — makes Acquire block on the enqueue rather
than return an error, despite a non-zero wait timeout. -/
theorem get_failure_modes_witness :
    (get (okModel 0 5 1 1 0) (emptyState 0) 0).1 = GetOutcome.blockedEnqueue :=
  (get_failure_modes (okModel 0 5 1 1 0) (emptyState 0) 0).2
    rfl (by decide) (by decide) (by decide)

end SimpleConnPool
